import Mathlib

/-!
Verification of the disaster-response core: the stochastic environment
engine (`environment.py`) and the goal/event/FSM reactive agent
(`lab3_goal_event_fsm_agent.py`), shallowly embedded in Lean.

Randomness is modelled by passing each `random.*` draw as an explicit
argument; theorems that depend on draw ranges take those ranges as
hypotheses.  Python floats are modelled as rationals; timestamps as an
opaque `Nat` supplied by the caller; `resources_needed : Dict[str,int]`
as four named fields, since the generator always populates exactly
those four keys.  Presentation-only detail strings are omitted.
-/

namespace DisasterResponse

/-- `DisasterType` enum from environment.py: five kinds of disasters. -/
inductive DisasterType where
  | FLOOD
  | EARTHQUAKE
  | FIRE
  | DROUGHT
  | STORM
deriving DecidableEq, Repr

/-- `Severity` enum from environment.py: five severity levels. -/
inductive Severity where
  | LOW
  | MODERATE
  | HIGH
  | CRITICAL
  | CATASTROPHIC
deriving DecidableEq, Repr

/-- `Severity.value`: the ordinal 1..5 carried by the Python enum. -/
def Severity.value : Severity → Nat
  | .LOW => 1
  | .MODERATE => 2
  | .HIGH => 3
  | .CRITICAL => 4
  | .CATASTROPHIC => 5

/-- `Location` dataclass: latitude, longitude, display name.
Identity throughout the code is the name (used as the dict key). -/
structure Location where
  latitude : ℚ
  longitude : ℚ
  name : String
deriving DecidableEq, Repr

/-- `DisasterEvent` dataclass.  `event_id` is the value of the engine's
monotonic counter (the Python code stores the string `f"D{n:04d}"`,
which is an injective image of the counter, so the counter itself is a
faithful id).  The `resources_needed` dict always holds exactly the
four keys the generator writes, modelled as four fields.  The creation
timestamp is presentation-only and omitted. -/
structure DisasterEvent where
  event_id : Nat
  disaster_type : DisasterType
  location : Location
  severity : Severity
  affected_area : ℚ
  casualties : Nat
  infrastructure_damage : ℚ
  medical_kits : Nat
  food_packages : Nat
  water_bottles : Nat
  rescue_teams : Nat
deriving DecidableEq, Repr

/-- One per-location conditions record, the value type of the
`current_conditions` dict in environment.py. -/
structure Cond where
  temperature : ℚ
  humidity : ℚ
  wind_speed : ℚ
  air_quality : ℚ
  seismic_activity : ℚ
  water_level : ℚ
  smoke_detected : Bool
deriving DecidableEq, Repr

/-- `EnvironmentPercept` dataclass: a snapshot of one location's
conditions plus the local disasters.  `timestamp` is the caller-visible
clock reading (`datetime.now()`), modelled as a `Nat` argument. -/
structure EnvironmentPercept where
  timestamp : Nat
  location : Location
  temperature : ℚ
  humidity : ℚ
  wind_speed : ℚ
  air_quality : ℚ
  seismic_activity : ℚ
  water_level : ℚ
  smoke_detected : Bool
  active_disasters : List DisasterEvent
deriving DecidableEq, Repr

/-- The mutable state of `DisasterEnvironment`: event counter, active
disasters, the fixed location registry, and the conditions dict
(modelled as a total function on names; only registry names are ever
read or written by the code). -/
structure DisasterEnvironment where
  event_counter : Nat
  active_disasters : List DisasterEvent
  locations : List Location
  current_conditions : String → Cond

/-- The fixed registry built by `_initialize_locations`. -/
def initialLocations : List Location :=
  [ ⟨(56037 : ℚ)/10000, -(1870 : ℚ)/10000, "Accra"⟩,
    ⟨(66944 : ℚ)/10000, -(15547 : ℚ)/10000, "Kumasi"⟩,
    ⟨(56260 : ℚ)/10000, (91 : ℚ)/10000, "Tema"⟩,
    ⟨(92619 : ℚ)/10000, -(8406 : ℚ)/10000, "Tamale"⟩,
    ⟨(51143 : ℚ)/10000, -(12440 : ℚ)/10000, "Cape Coast"⟩ ]

/-- The per-location random deltas drawn by one drift step of
`update_environment` (lines 131-134): `uniform(-2,2)` for temperature,
`uniform(-5,5)` for humidity and wind speed, `uniform(-10,10)` for air
quality. -/
structure DriftDraws where
  dTemp : ℚ
  dHumidity : ℚ
  dWind : ℚ
  dAirQuality : ℚ

/-- The drift-and-clamp step of `update_environment` applied to one
location's conditions (environment.py lines 130-139): add the deltas,
floor wind speed at 0, then clip temperature to [20,45], humidity to
[30,100] and air quality to [0,500].  Wind speed has no upper clip and
seismic activity, water level and the smoke flag are not drifted. -/
def driftCond (c : Cond) (d : DriftDraws) : Cond :=
  let t := c.temperature + d.dTemp
  let h := c.humidity + d.dHumidity
  let w := max 0 (c.wind_speed + d.dWind)
  let a := c.air_quality + d.dAirQuality
  { c with
    temperature := max 20 (min 45 t)
    humidity := max 30 (min 100 h)
    wind_speed := w
    air_quality := max 0 (min 500 a) }

/-- All random draws consumed by one call of `_generate_disaster`
(environment.py lines 148-194): the chosen kind, location and severity,
the kind-specific condition draws, and the magnitude draws for the new
`DisasterEvent`. -/
structure SpawnDraws where
  disaster_type : DisasterType
  location : Location
  severity : Severity
  floodWater : ℚ
  fireTemp : ℚ
  fireAir : ℚ
  quakeSeismic : ℚ
  droughtTemp : ℚ
  stormWind : ℚ
  affected_area : ℚ
  casualties : Nat
  infrastructure_damage : ℚ
  medical_kits : Nat
  food_packages : Nat
  water_bottles : Nat
  rescue_teams : Nat

/-- The kind-specific side effects `_generate_disaster` applies to the
spawn location's conditions (environment.py lines 159-173).  These run
AFTER the drift clamping of `update_environment` and are themselves
only partially clamped (humidity is capped/floored, nothing else is). -/
def applySpawnEffects (sp : SpawnDraws) (c : Cond) : Cond :=
  match sp.disaster_type with
  | .FLOOD => { c with
      water_level := sp.floodWater
      humidity := min 100 (c.humidity + 20) }
  | .FIRE => { c with
      smoke_detected := true
      temperature := c.temperature + sp.fireTemp
      air_quality := c.air_quality + sp.fireAir }
  | .EARTHQUAKE => { c with seismic_activity := sp.quakeSeismic }
  | .DROUGHT => { c with
      temperature := c.temperature + sp.droughtTemp
      humidity := max 20 (c.humidity - 30) }
  | .STORM => { c with
      wind_speed := sp.stormWind
      humidity := min 100 (c.humidity + 15) }

/-- `_generate_disaster`: bump the counter, apply kind-specific side
effects to the chosen location's conditions, build the new
`DisasterEvent` from the magnitude draws and append it to the
catalog. -/
def generate_disaster (s : DisasterEnvironment) (sp : SpawnDraws) :
    DisasterEnvironment :=
  let counter := s.event_counter + 1
  let event : DisasterEvent :=
    { event_id := counter
      disaster_type := sp.disaster_type
      location := sp.location
      severity := sp.severity
      affected_area := sp.affected_area
      casualties := sp.casualties
      infrastructure_damage := sp.infrastructure_damage
      medical_kits := sp.medical_kits
      food_packages := sp.food_packages
      water_bottles := sp.water_bottles
      rescue_teams := sp.rescue_teams }
  { s with
    event_counter := counter
    current_conditions := fun n =>
      if n = sp.location.name then applySpawnEffects sp (s.current_conditions n)
      else s.current_conditions n
    active_disasters := s.active_disasters ++ [event] }

/-- The condition reset `_update_disasters` performs when one disaster
resolves (environment.py lines 205-211): water level to 0 for a FLOOD,
smoke flag to false for a FIRE, seismic activity to 0 for an
EARTHQUAKE; the code has no branch for DROUGHT or STORM, so those
resolutions change nothing. -/
def resetOnResolve (d : DisasterEvent) (c : Cond) : Cond :=
  match d.disaster_type with
  | .FLOOD => { c with water_level := 0 }
  | .FIRE => { c with smoke_detected := false }
  | .EARTHQUAKE => { c with seismic_activity := 0 }
  | .DROUGHT => c
  | .STORM => c

/-- `_update_disasters`: each active disaster resolves when its 20%
coin (modelled as the predicate `resolveP` on event ids) comes up; the
resolved disasters' resets are applied to the conditions dict and the
resolved disasters are removed from the catalog.  Removal by
`list.remove` on a list of events with distinct ids is a filter. -/
def update_disasters (s : DisasterEnvironment) (resolveP : Nat → Bool) :
    DisasterEnvironment :=
  let toRemove := s.active_disasters.filter (fun d => resolveP d.event_id)
  { s with
    current_conditions := fun n =>
      toRemove.foldl
        (fun c d => if d.location.name = n then resetOnResolve d c else c)
        (s.current_conditions n)
    active_disasters :=
      s.active_disasters.filter (fun d => !resolveP d.event_id) }

/-- `update_environment` for one tick (environment.py lines 123-146):
drift-and-clamp every registered location's conditions, then (when the
80% spawn coin `doSpawn` hits) generate one disaster, then run the
resolution pass.  `drift` supplies each location's drift draws. -/
def update_environment (s : DisasterEnvironment) (drift : String → DriftDraws)
    (doSpawn : Bool) (sp : SpawnDraws) (resolveP : Nat → Bool) :
    DisasterEnvironment :=
  let s1 : DisasterEnvironment :=
    { s with
      current_conditions := fun n =>
        if (s.locations.map Location.name).contains n then
          driftCond (s.current_conditions n) (drift n)
        else s.current_conditions n }
  let s2 := if doSpawn then generate_disaster s1 sp else s1
  update_disasters s2 resolveP

/-- `sense`: read the location's conditions and the local subset of
the catalog into a fresh percept (environment.py lines 216-237).  The
timestamp is the caller's clock reading. -/
def sense (s : DisasterEnvironment) (now : Nat) (location : Location) :
    EnvironmentPercept :=
  let cond := s.current_conditions location.name
  let local_disasters :=
    s.active_disasters.filter (fun d => d.location.name = location.name)
  { timestamp := now
    location := location
    temperature := cond.temperature
    humidity := cond.humidity
    wind_speed := cond.wind_speed
    air_quality := cond.air_quality
    seismic_activity := cond.seismic_activity
    water_level := cond.water_level
    smoke_detected := cond.smoke_detected
    active_disasters := local_disasters }

/-- `get_all_percepts`: one percept per registered location, in
registry order. -/
def get_all_percepts (s : DisasterEnvironment) (now : Nat) :
    List EnvironmentPercept :=
  s.locations.map (sense s now)

/-! ### The goal/event/FSM reactive agent (lab3_goal_event_fsm_agent.py) -/

/-- `ResponseState` enum: the four FSM states. -/
inductive ResponseState where
  | MONITORING
  | ASSESSING
  | DISPATCHING
  | RECOVERY
deriving DecidableEq, Repr

/-- The tag of a derived event dict's `"type"` entry. -/
inductive EventType where
  | TEMP_SPIKE
  | WATER_RISE
  | DISASTER_DETECTED
  | SEVERITY_ESCALATION
  | RESOURCE_SHORTAGE
deriving DecidableEq, Repr

/-- One event dict built by `_derive_events`: a type tag, the location
name, and the optional `"disaster"` entry (present exactly for the
three disaster-linked event types).  The human-readable `"details"`
string is presentation-only and omitted. -/
structure DerivedEvent where
  etype : EventType
  location : String
  disaster : Option DisasterEvent
deriving DecidableEq, Repr

/-- One entry of `transition_history` as appended by `_switch_state`:
from-state, to-state and reason (the wall-clock `"time"` entry is
presentation-only and omitted). -/
structure TransitionRecord where
  fromState : ResponseState
  toState : ResponseState
  reason : String
deriving DecidableEq, Repr

/-- The agent state the FSM logic touches: the current `ResponseState`,
the transition history, and the seen-set `last_handled_event_ids`
(a Python set of disaster ids, modelled as a duplicate-free list). -/
structure AgentState where
  state : ResponseState
  transition_history : List TransitionRecord
  last_handled_event_ids : List Nat
deriving Repr

/-- The agent as built by `__init__`: state MONITORING, empty history,
empty seen-set. -/
def initAgent : AgentState :=
  { state := .MONITORING
    transition_history := []
    last_handled_event_ids := [] }

/-- `_switch_state`: a self-transition returns immediately (nothing
recorded); otherwise the state is replaced and one record appended. -/
def switch_state (a : AgentState) (new_state : ResponseState)
    (reason : String) : AgentState :=
  if a.state = new_state then a
  else
    { a with
      state := new_state
      transition_history :=
        a.transition_history ++ [⟨a.state, new_state, reason⟩] }

/-- The per-disaster part of the `_derive_events` loop body
(lab3 lines 113-143): for each disaster of the percept, in catalog
order, emit DISASTER_DETECTED when its id is not yet in the seen-set
(adding the id), then SEVERITY_ESCALATION when severity ≥ CRITICAL,
then RESOURCE_SHORTAGE when the rescue-team requirement ≥ 12; the
seen-set threads through the loop. -/
def deriveDisasterEvents (loc : String) (seen : List Nat) :
    List DisasterEvent → List DerivedEvent × List Nat
  | [] => ([], seen)
  | d :: ds =>
    let detected : List DerivedEvent × List Nat :=
      if seen.contains d.event_id then ([], seen)
      else ([⟨.DISASTER_DETECTED, loc, some d⟩], seen ++ [d.event_id])
    let esc : List DerivedEvent :=
      if Severity.CRITICAL.value ≤ d.severity.value then
        [⟨.SEVERITY_ESCALATION, loc, some d⟩]
      else []
    let short : List DerivedEvent :=
      if 12 ≤ d.rescue_teams then [⟨.RESOURCE_SHORTAGE, loc, some d⟩]
      else []
    let rest := deriveDisasterEvents loc detected.2 ds
    (detected.1 ++ esc ++ short ++ rest.1, rest.2)

/-- `_derive_events` (lab3 lines 90-145): for each percept in the given
order emit TEMP_SPIKE when temperature ≥ 42, then WATER_RISE when
water level ≥ 1.5, then the per-disaster events; the seen-set
(`self.last_handled_event_ids`) threads through and is returned. -/
def derive_events (seen : List Nat) :
    List EnvironmentPercept → List DerivedEvent × List Nat
  | [] => ([], seen)
  | p :: ps =>
    let temp : List DerivedEvent :=
      if (42 : ℚ) ≤ p.temperature then [⟨.TEMP_SPIKE, p.location.name, none⟩]
      else []
    let water : List DerivedEvent :=
      if (3 : ℚ)/2 ≤ p.water_level then [⟨.WATER_RISE, p.location.name, none⟩]
      else []
    let dis := deriveDisasterEvents p.location.name seen p.active_disasters
    let rest := derive_events dis.2 ps
    (temp ++ water ++ dis.1 ++ rest.1, rest.2)

/-- The sort key of `_prioritize_disaster`'s `max` call: the Python
tuple `(severity.value, casualties, infrastructure_damage)` compared
lexicographically. -/
def priorityKey (d : DisasterEvent) : Lex (Nat × Lex (Nat × ℚ)) :=
  toLex (d.severity.value, toLex (d.casualties, d.infrastructure_damage))

/-- Python's `max(xs, key=...)`: scan left to right keeping the current
maximum, replacing it only on a strictly larger key — so among equal
keys the first occurrence wins. -/
def pyMaxBy (best : DisasterEvent) : List DisasterEvent → DisasterEvent
  | [] => best
  | d :: ds => pyMaxBy (if priorityKey best < priorityKey d then d else best) ds

/-- `_prioritize_disaster` (lab3 lines 147-159): collect the disasters
of the events that carry one, in event order; `None` when there are
none, otherwise the `max` under `priorityKey`. -/
def prioritize_disaster (events : List DerivedEvent) : Option DisasterEvent :=
  match events.filterMap (fun e => e.disaster) with
  | [] => none
  | d :: ds => some (pyMaxBy d ds)

/-- `_react` (lab3 lines 161-209): with no events, fall back to
MONITORING when not already there; otherwise cascade through the
states with the guards exactly as in the source — note the RECOVERY
block only returns to MONITORING under `if priority_disaster:`. -/
def react (a : AgentState) (events : List DerivedEvent) : AgentState :=
  if events.isEmpty then
    if a.state ≠ ResponseState.MONITORING then
      switch_state a .MONITORING "No active trigger events"
    else a
  else
    let priority_disaster := prioritize_disaster events
    let a1 :=
      if a.state = ResponseState.MONITORING then
        switch_state a .ASSESSING "Disaster-related event detected"
      else a
    let a2 :=
      if a1.state = ResponseState.ASSESSING then
        switch_state a1 .DISPATCHING "Assessment complete"
      else a1
    let a3 :=
      if a2.state = ResponseState.DISPATCHING then
        switch_state a2 .RECOVERY "Initial dispatch actions completed"
      else a2
    if a3.state = ResponseState.RECOVERY then
      match priority_disaster with
      | some d =>
        if d.severity.value ≤ Severity.MODERATE.value then
          switch_state a3 .MONITORING "Disaster impact under control"
        else
          switch_state a3 .MONITORING "Return to monitor after recovery cycle"
      | none => a3
    else a3

/-! ### Concrete fixtures used by counterexamples and witnesses -/

/-- The Accra registry entry. -/
def accra : Location := ⟨(56037 : ℚ)/10000, -(1870 : ℚ)/10000, "Accra"⟩

/-- A baseline in-range conditions record. -/
def baseCond : Cond :=
  { temperature := 35, humidity := 70, wind_speed := 10, air_quality := 100
    seismic_activity := 0, water_level := 0, smoke_detected := false }

/-- A fresh engine whose five registered locations all start at
`baseCond`. -/
def envStart : DisasterEnvironment :=
  { event_counter := 0, active_disasters := [], locations := initialLocations
    current_conditions := fun _ => baseCond }

/-- Drift draws used by the C1 counterexample tick: +2 temperature,
everything else unchanged (all within `uniform(-2,2)` etc.). -/
def driftPlus2 : String → DriftDraws := fun _ => ⟨2, 0, 0, 0⟩

/-- Spawn draws for a HIGH-severity FIRE at Accra with the maximal
in-range draws `uniform(10,30) = 30` and `uniform(100,300) = 300`. -/
def fireSpawn : SpawnDraws :=
  { disaster_type := .FIRE, location := accra, severity := .HIGH
    floodWater := 1, fireTemp := 30, fireAir := 300, quakeSeismic := 3
    droughtTemp := 5, stormWind := 50
    affected_area := 10, casualties := 5, infrastructure_damage := 30
    medical_kits := 50, food_packages := 100, water_bottles := 200
    rescue_teams := 10 }

/-! ### Range facts about the drift step and the resolution resets -/

/-- After drift-and-clamp, temperature, humidity and air quality are in
their clip ranges and wind speed is non-negative. -/
lemma driftCond_ranges (c : Cond) (d : DriftDraws) :
    20 ≤ (driftCond c d).temperature ∧ (driftCond c d).temperature ≤ 45 ∧
    30 ≤ (driftCond c d).humidity ∧ (driftCond c d).humidity ≤ 100 ∧
    0 ≤ (driftCond c d).air_quality ∧ (driftCond c d).air_quality ≤ 500 ∧
    0 ≤ (driftCond c d).wind_speed := by
  refine ⟨le_max_left _ _, max_le (by norm_num) (min_le_left _ _),
    le_max_left _ _, max_le (by norm_num) (min_le_left _ _),
    le_max_left _ _, max_le (by norm_num) (min_le_left _ _),
    le_max_left _ _⟩

/-- The drift step does not touch seismic activity, water level or the
smoke flag. -/
lemma driftCond_untouched (c : Cond) (d : DriftDraws) :
    (driftCond c d).seismic_activity = c.seismic_activity ∧
    (driftCond c d).water_level = c.water_level ∧
    (driftCond c d).smoke_detected = c.smoke_detected := ⟨rfl, rfl, rfl⟩

/-- A resolution reset never touches temperature, humidity, wind speed
or air quality (the drift-only fields). -/
lemma resetOnResolve_frame (d : DisasterEvent) (c : Cond) :
    (resetOnResolve d c).temperature = c.temperature ∧
    (resetOnResolve d c).humidity = c.humidity ∧
    (resetOnResolve d c).wind_speed = c.wind_speed ∧
    (resetOnResolve d c).air_quality = c.air_quality := by
  cases h : d.disaster_type <;> simp [resetOnResolve, h]

/-- A resolution reset either zeroes the water level or leaves it. -/
lemma resetOnResolve_water (d : DisasterEvent) (c : Cond) :
    (resetOnResolve d c).water_level = 0 ∨
    (resetOnResolve d c).water_level = c.water_level := by
  cases h : d.disaster_type <;> simp [resetOnResolve, h]

/-- The conditions-updating fold of `update_disasters`, at one name. -/
def resolveFold (n : String) (l : List DisasterEvent) (c : Cond) : Cond :=
  l.foldl (fun c d => if d.location.name = n then resetOnResolve d c else c) c

/-- `update_disasters` rewritten through `resolveFold`. -/
lemma update_disasters_conditions (s : DisasterEnvironment)
    (resolveP : Nat → Bool) (n : String) :
    (update_disasters s resolveP).current_conditions n =
      resolveFold n (s.active_disasters.filter (fun d => resolveP d.event_id))
        (s.current_conditions n) := rfl

/-- The resolution fold preserves the drift-only fields and
non-negativity of the water level. -/
lemma resolveFold_frame (n : String) (l : List DisasterEvent) (c : Cond) :
    (resolveFold n l c).temperature = c.temperature ∧
    (resolveFold n l c).humidity = c.humidity ∧
    (resolveFold n l c).wind_speed = c.wind_speed ∧
    (resolveFold n l c).air_quality = c.air_quality ∧
    (0 ≤ c.water_level → 0 ≤ (resolveFold n l c).water_level) := by
  induction l generalizing c with
  | nil => exact ⟨rfl, rfl, rfl, rfl, fun h => h⟩
  | cons d ds ih =>
    have step : ∀ c' : Cond,
        resolveFold n (d :: ds) c' =
          resolveFold n ds (if d.location.name = n then resetOnResolve d c' else c') :=
      fun c' => rfl
    rw [step]
    by_cases hd : d.location.name = n
    · simp only [hd, if_pos rfl]
      obtain ⟨h1, h2, h3, h4, h5⟩ := ih (resetOnResolve d c)
      obtain ⟨f1, f2, f3, f4⟩ := resetOnResolve_frame d c
      refine ⟨h1.trans f1, h2.trans f2, h3.trans f3, h4.trans f4, fun hw => ?_⟩
      refine h5 ?_
      rcases resetOnResolve_water d c with h | h
      · rw [h]
      · rw [h]; exact hw
    · simp only [if_neg hd]
      exact ih c

/-- C1 fails as stated: on a tick whose drift draws and FIRE spawn
draws are all inside their documented random ranges, the spawn's
side effects run after the clamping, so Accra's temperature ends the
tick at 67 °C, above the documented upper clamp 45. -/
theorem C1_clamp_counterexample :
    (-2 ≤ (driftPlus2 "Accra").dTemp ∧ (driftPlus2 "Accra").dTemp ≤ 2) ∧
    (10 ≤ fireSpawn.fireTemp ∧ fireSpawn.fireTemp ≤ 30) ∧
    (100 ≤ fireSpawn.fireAir ∧ fireSpawn.fireAir ≤ 300) ∧
    accra ∈ envStart.locations ∧
    ¬ ((update_environment envStart driftPlus2 true fireSpawn
          (fun _ => false)).current_conditions accra.name).temperature ≤ 45 := by
  refine ⟨⟨by norm_num [driftPlus2], by norm_num [driftPlus2]⟩,
    ⟨by norm_num [fireSpawn], by norm_num [fireSpawn]⟩,
    ⟨by norm_num [fireSpawn], by norm_num [fireSpawn]⟩,
    List.mem_cons_self _ _, ?_⟩
  have h : ((update_environment envStart driftPlus2 true fireSpawn
      (fun _ => false)).current_conditions accra.name).temperature = 67 := by
    simp +decide [update_environment, generate_disaster, applySpawnEffects,
      driftCond, update_disasters, envStart, driftPlus2, fireSpawn, baseCond,
      initialLocations, accra]
    norm_num [min_def, max_def]
  rw [h]; norm_num

/-- C1 amended: on a tick with no disaster spawn (the 80% coin misses),
every registered location's conditions end the tick inside the
documented ranges — temperature in [20,45], humidity in [30,100], air
quality in [0,500], wind speed ≥ 0, and water level ≥ 0 provided it was
non-negative before the tick.  (The counterexample above shows the
ranges can be violated on a tick whose spawn side effects hit the
location.) -/
theorem C1_clamp_no_spawn (s : DisasterEnvironment) (drift : String → DriftDraws)
    (sp : SpawnDraws) (resolveP : Nat → Bool)
    (hw : ∀ n, 0 ≤ (s.current_conditions n).water_level)
    (loc : Location) (hloc : loc ∈ s.locations) :
    20 ≤ ((update_environment s drift false sp resolveP).current_conditions
        loc.name).temperature ∧
    ((update_environment s drift false sp resolveP).current_conditions
        loc.name).temperature ≤ 45 ∧
    30 ≤ ((update_environment s drift false sp resolveP).current_conditions
        loc.name).humidity ∧
    ((update_environment s drift false sp resolveP).current_conditions
        loc.name).humidity ≤ 100 ∧
    0 ≤ ((update_environment s drift false sp resolveP).current_conditions
        loc.name).air_quality ∧
    ((update_environment s drift false sp resolveP).current_conditions
        loc.name).air_quality ≤ 500 ∧
    0 ≤ ((update_environment s drift false sp resolveP).current_conditions
        loc.name).wind_speed ∧
    0 ≤ ((update_environment s drift false sp resolveP).current_conditions
        loc.name).water_level := by
  have hmem : (s.locations.map Location.name).contains loc.name = true :=
    List.elem_eq_true_of_mem (List.mem_map_of_mem Location.name hloc)
  have hdrift : (update_environment s drift false sp resolveP).current_conditions
      loc.name =
      resolveFold loc.name
        (s.active_disasters.filter (fun d => resolveP d.event_id))
        (driftCond (s.current_conditions loc.name) (drift loc.name)) := by
    simp only [update_environment, if_neg Bool.false_ne_true,
      update_disasters_conditions, hmem]
    simp
  rw [hdrift]
  obtain ⟨f1, f2, f3, f4, f5⟩ :=
    resolveFold_frame loc.name
      (s.active_disasters.filter (fun d => resolveP d.event_id))
      (driftCond (s.current_conditions loc.name) (drift loc.name))
  obtain ⟨r1, r2, r3, r4, r5, r6, r7⟩ :=
    driftCond_ranges (s.current_conditions loc.name) (drift loc.name)
  refine ⟨f1 ▸ r1, f1 ▸ r2, f2 ▸ r3, f2 ▸ r4, f4 ▸ r5, f4 ▸ r6, f3 ▸ r7, ?_⟩
  refine f5 ?_
  rw [(driftCond_untouched (s.current_conditions loc.name) (drift loc.name)).2.1]
  exact hw loc.name

/-- Witness for the amended C1 at a concrete no-spawn tick. -/
theorem C1_clamp_no_spawn_witness :
    20 ≤ ((update_environment envStart driftPlus2 false fireSpawn
        (fun _ => false)).current_conditions accra.name).temperature ∧
    ((update_environment envStart driftPlus2 false fireSpawn
        (fun _ => false)).current_conditions accra.name).temperature ≤ 45 ∧
    30 ≤ ((update_environment envStart driftPlus2 false fireSpawn
        (fun _ => false)).current_conditions accra.name).humidity ∧
    ((update_environment envStart driftPlus2 false fireSpawn
        (fun _ => false)).current_conditions accra.name).humidity ≤ 100 ∧
    0 ≤ ((update_environment envStart driftPlus2 false fireSpawn
        (fun _ => false)).current_conditions accra.name).air_quality ∧
    ((update_environment envStart driftPlus2 false fireSpawn
        (fun _ => false)).current_conditions accra.name).air_quality ≤ 500 ∧
    0 ≤ ((update_environment envStart driftPlus2 false fireSpawn
        (fun _ => false)).current_conditions accra.name).wind_speed ∧
    0 ≤ ((update_environment envStart driftPlus2 false fireSpawn
        (fun _ => false)).current_conditions accra.name).water_level :=
  C1_clamp_no_spawn envStart driftPlus2 fireSpawn (fun _ => false)
    (fun _ => le_rfl) accra (List.mem_cons_self _ _)

/-- C7: two `sense` calls on the same state at the same location agree
on every Percept field except the timestamp.  `sense` is a pure
function of the engine state in this embedding, exactly as in the
source, where it performs only dict reads and a list comprehension —
so neither call can change the conditions dict, the disaster catalog
or the event counter. -/
theorem C7_sense_idempotent (s : DisasterEnvironment) (t1 t2 : Nat)
    (loc : Location) :
    sense s t1 loc = { sense s t2 loc with timestamp := t1 } := rfl

/-- A resolution reset either clears the smoke flag or leaves it. -/
lemma resetOnResolve_smoke (d : DisasterEvent) (c : Cond) :
    (resetOnResolve d c).smoke_detected = false ∨
    (resetOnResolve d c).smoke_detected = c.smoke_detected := by
  cases h : d.disaster_type <;> simp [resetOnResolve, h]

/-- A resolution reset either zeroes seismic activity or leaves it. -/
lemma resetOnResolve_seismic (d : DisasterEvent) (c : Cond) :
    (resetOnResolve d c).seismic_activity = 0 ∨
    (resetOnResolve d c).seismic_activity = c.seismic_activity := by
  cases h : d.disaster_type <;> simp [resetOnResolve, h]

/-- Once cleared/zeroed, the smoke flag, water level and seismic
activity stay cleared through the rest of the resolution fold. -/
lemma resolveFold_preserve (n : String) (l : List DisasterEvent) (c : Cond) :
    (c.smoke_detected = false → (resolveFold n l c).smoke_detected = false) ∧
    (c.water_level = 0 → (resolveFold n l c).water_level = 0) ∧
    (c.seismic_activity = 0 → (resolveFold n l c).seismic_activity = 0) := by
  induction l generalizing c with
  | nil => exact ⟨fun h => h, fun h => h, fun h => h⟩
  | cons d ds ih =>
    have step : resolveFold n (d :: ds) c =
        resolveFold n ds (if d.location.name = n then resetOnResolve d c else c) :=
      rfl
    rw [step]
    by_cases hd : d.location.name = n
    · simp only [if_pos hd]
      obtain ⟨i1, i2, i3⟩ := ih (resetOnResolve d c)
      refine ⟨fun h => i1 ?_, fun h => i2 ?_, fun h => i3 ?_⟩
      · rcases resetOnResolve_smoke d c with h' | h'
        · exact h'
        · rw [h', h]
      · rcases resetOnResolve_water d c with h' | h'
        · exact h'
        · rw [h', h]
      · rcases resetOnResolve_seismic d c with h' | h'
        · exact h'
        · rw [h', h]
    · simp only [if_neg hd]
      exact ih c

/-- When a FIRE / FLOOD / EARTHQUAKE disaster is among the resolved
list, the resolution fold at its location ends with the smoke flag
cleared / water level zero / seismic activity zero respectively. -/
lemma resolveFold_resets (n : String) (l : List DisasterEvent) (c : Cond)
    (d : DisasterEvent) (hd : d ∈ l) (hn : d.location.name = n) :
    (d.disaster_type = .FIRE → (resolveFold n l c).smoke_detected = false) ∧
    (d.disaster_type = .FLOOD → (resolveFold n l c).water_level = 0) ∧
    (d.disaster_type = .EARTHQUAKE →
      (resolveFold n l c).seismic_activity = 0) := by
  induction l generalizing c with
  | nil => cases hd
  | cons d0 ds ih =>
    have step : resolveFold n (d0 :: ds) c =
        resolveFold n ds (if d0.location.name = n then resetOnResolve d0 c else c) :=
      rfl
    rw [step]
    rcases List.mem_cons.mp hd with heq | hmem
    · subst heq
      simp only [if_pos hn]
      refine ⟨fun ht => ?_, fun ht => ?_, fun ht => ?_⟩
      · exact (resolveFold_preserve n ds (resetOnResolve d c)).1
          (by simp [resetOnResolve, ht])
      · exact (resolveFold_preserve n ds (resetOnResolve d c)).2.1
          (by simp [resetOnResolve, ht])
      · exact (resolveFold_preserve n ds (resetOnResolve d c)).2.2
          (by simp [resetOnResolve, ht])
    · exact ih _ hmem

/-- C6 amended, part proved in general: after the resolution pass,
(i) a disaster survives in the catalog exactly when its resolution
coin missed; (ii) the drift-only fields of every location are
untouched; (iii) every resolved FIRE leaves its location's smoke flag
false, every resolved FLOOD leaves water level 0, every resolved
EARTHQUAKE leaves seismic activity 0; and (iv) the reset applied for a
DROUGHT or STORM is the identity — the code has no reset branch for
those kinds, so their spawn effects (wind speed, temperature,
humidity) persist after resolution. -/
theorem C6_resolution_resets (s : DisasterEnvironment) (resolveP : Nat → Bool) :
    (∀ d ∈ s.active_disasters,
      (d ∈ (update_disasters s resolveP).active_disasters ↔
        resolveP d.event_id = false)) ∧
    (∀ n : String,
      ((update_disasters s resolveP).current_conditions n).temperature =
        (s.current_conditions n).temperature ∧
      ((update_disasters s resolveP).current_conditions n).humidity =
        (s.current_conditions n).humidity ∧
      ((update_disasters s resolveP).current_conditions n).wind_speed =
        (s.current_conditions n).wind_speed ∧
      ((update_disasters s resolveP).current_conditions n).air_quality =
        (s.current_conditions n).air_quality) ∧
    (∀ d ∈ s.active_disasters, resolveP d.event_id = true →
      (d.disaster_type = .FIRE →
        ((update_disasters s resolveP).current_conditions
          d.location.name).smoke_detected = false) ∧
      (d.disaster_type = .FLOOD →
        ((update_disasters s resolveP).current_conditions
          d.location.name).water_level = 0) ∧
      (d.disaster_type = .EARTHQUAKE →
        ((update_disasters s resolveP).current_conditions
          d.location.name).seismic_activity = 0)) ∧
    (∀ (d : DisasterEvent) (c : Cond),
      d.disaster_type = .DROUGHT ∨ d.disaster_type = .STORM →
      resetOnResolve d c = c) := by
  refine ⟨?_, ?_, ?_, ?_⟩
  · intro d hd
    simp only [update_disasters, List.mem_filter, Bool.not_eq_eq_eq_not,
      Bool.not_true]
    constructor
    · rintro ⟨-, h⟩
      simpa using h
    · intro h
      exact ⟨hd, by simpa using h⟩
  · intro n
    rw [update_disasters_conditions]
    obtain ⟨f1, f2, f3, f4, -⟩ :=
      resolveFold_frame n
        (s.active_disasters.filter (fun d => resolveP d.event_id))
        (s.current_conditions n)
    exact ⟨f1, f2, f3, f4⟩
  · intro d hd hP
    rw [update_disasters_conditions]
    exact resolveFold_resets d.location.name
      (s.active_disasters.filter (fun d => resolveP d.event_id))
      (s.current_conditions d.location.name) d
      (List.mem_filter.mpr ⟨hd, by simp [hP]⟩) rfl
  · intro d c h
    rcases h with h | h <;> simp [resetOnResolve, h]

/-! ### The reactive FSM policy -/

/-- A TEMP_SPIKE event carries no disaster reference. -/
def tempSpikeAccra : DerivedEvent := ⟨.TEMP_SPIKE, "Accra", none⟩

/-- A HIGH-severity STORM used by several concrete scenarios. -/
def stormAccra : DisasterEvent :=
  { event_id := 1, disaster_type := .STORM, location := accra
    severity := .HIGH, affected_area := 10, casualties := 5
    infrastructure_damage := 30, medical_kits := 50, food_packages := 100
    water_bottles := 200, rescue_teams := 10 }

/-- A DISASTER_DETECTED event for `stormAccra`. -/
def detectedStormAccra : DerivedEvent := ⟨.DISASTER_DETECTED, "Accra", some stormAccra⟩

/-- C2 fails as stated: a tick whose (non-empty) event list carries no
disaster reference — here a single TEMP_SPIKE, which `_derive_events`
emits on mere drift heat — leaves the policy stuck in RECOVERY at the
end of the tick, because the RECOVERY block only returns to MONITORING
under `if priority_disaster:`. -/
theorem C2_cascade_counterexample :
    [tempSpikeAccra] ≠ [] ∧
    initAgent.state = ResponseState.MONITORING ∧
    (react initAgent [tempSpikeAccra]).state = ResponseState.RECOVERY ∧
    (react initAgent [tempSpikeAccra]).state ≠ ResponseState.MONITORING := by
  refine ⟨by simp, rfl, rfl, by decide⟩

/-- `switch_state` on a genuine change: replace the state and append
one record. -/
lemma switch_state_of_ne (a : AgentState) (new_state : ResponseState)
    (reason : String) (h : a.state ≠ new_state) :
    switch_state a new_state reason =
      { a with
        state := new_state,
        transition_history :=
          a.transition_history ++ [⟨a.state, new_state, reason⟩] } := by
  simp [switch_state, h]

/-- When some event carries a disaster, `_prioritize_disaster` returns
one. -/
lemma prioritize_disaster_isSome (events : List DerivedEvent)
    (h : ∃ e ∈ events, e.disaster.isSome) :
    ∃ d, prioritize_disaster events = some d := by
  obtain ⟨e, he, hd⟩ := h
  unfold prioritize_disaster
  cases hfm : events.filterMap (fun e => e.disaster) with
  | nil =>
    rw [List.filterMap_eq_nil_iff] at hfm
    rw [hfm e he] at hd
    cases hd
  | cons d ds => exact ⟨_, rfl⟩

/-- When no event carries a disaster, `_prioritize_disaster` returns
`None`. -/
lemma prioritize_disaster_none (events : List DerivedEvent)
    (h : ∀ e ∈ events, e.disaster = none) :
    prioritize_disaster events = none := by
  unfold prioritize_disaster
  rw [List.filterMap_eq_nil_iff.mpr h]

/-- C2 amended: from MONITORING, an empty tick changes nothing; a tick
with at least one disaster-carrying event cascades
MONITORING → ASSESSING → DISPATCHING → RECOVERY → MONITORING, ending
in MONITORING with the four transitions appended to the history; but a
non-empty tick none of whose events carries a disaster ends the tick
in RECOVERY (the case the original claim misses). -/
theorem C2_cascade (a : AgentState) (events : List DerivedEvent)
    (ha : a.state = ResponseState.MONITORING) :
    (events = [] → react a events = a) ∧
    ((∃ e ∈ events, e.disaster.isSome) →
      (react a events).state = ResponseState.MONITORING ∧
      ∃ r : String,
        (react a events).transition_history =
          a.transition_history ++
            [⟨.MONITORING, .ASSESSING, "Disaster-related event detected"⟩,
             ⟨.ASSESSING, .DISPATCHING, "Assessment complete"⟩,
             ⟨.DISPATCHING, .RECOVERY, "Initial dispatch actions completed"⟩,
             ⟨.RECOVERY, .MONITORING, r⟩]) ∧
    (events ≠ [] → (∀ e ∈ events, e.disaster = none) →
      (react a events).state = ResponseState.RECOVERY) := by
  obtain ⟨st, H, ids⟩ := a
  simp only at ha
  subst ha
  refine ⟨fun he => by subst he; rfl, ?_, ?_⟩
  · intro hex
    obtain ⟨d, hd⟩ := prioritize_disaster_isSome events hex
    obtain ⟨e, he, -⟩ := hex
    cases events with
    | nil => cases he
    | cons e0 rest =>
      by_cases hsev : d.severity.value ≤ Severity.MODERATE.value
      · refine ⟨?_, "Disaster impact under control", ?_⟩ <;>
          simp [react, switch_state, hd, hsev]
      · refine ⟨?_, "Return to monitor after recovery cycle", ?_⟩ <;>
          simp [react, switch_state, hd, hsev]
  · intro hne hnone
    have hd := prioritize_disaster_none events hnone
    cases events with
    | nil => exact absurd rfl hne
    | cons e0 rest => simp [react, switch_state, hd]

/-- Witness for the amended C2: a concrete tick whose single event
carries a HIGH-severity storm ends back in MONITORING with the full
cascade recorded. -/
theorem C2_cascade_witness :
    (react initAgent [detectedStormAccra]).state = ResponseState.MONITORING ∧
    ∃ r : String,
      (react initAgent [detectedStormAccra]).transition_history =
        initAgent.transition_history ++
          [⟨.MONITORING, .ASSESSING, "Disaster-related event detected"⟩,
           ⟨.ASSESSING, .DISPATCHING, "Assessment complete"⟩,
           ⟨.DISPATCHING, .RECOVERY, "Initial dispatch actions completed"⟩,
           ⟨.RECOVERY, .MONITORING, r⟩] :=
  (C2_cascade initAgent [detectedStormAccra] rfl).2.1
    ⟨detectedStormAccra, List.mem_cons_self _ _, rfl⟩

/-- The chain shape of a transition history: read from `init`, each
record starts where the previous one ended, no record is a self-loop,
and the last record ends at `cur` (with `cur = init` for an empty
history). -/
def chained (init : ResponseState) :
    List TransitionRecord → ResponseState → Prop
  | [], cur => cur = init
  | r :: rest, cur =>
    r.fromState = init ∧ r.fromState ≠ r.toState ∧ chained r.toState rest cur

/-- Appending one non-self-loop record that starts at the current end
of a chain keeps it a chain. -/
lemma chained_append (init cur new : ResponseState)
    (h : List TransitionRecord) (reason : String)
    (hc : chained init h cur) (hne : cur ≠ new) :
    chained init (h ++ [⟨cur, new, reason⟩]) new := by
  induction h generalizing init with
  | nil => exact ⟨hc, hne, rfl⟩
  | cons r rest ih =>
    obtain ⟨h1, h2, h3⟩ := hc
    exact ⟨h1, h2, ih r.toState h3⟩

/-- `_switch_state` preserves the chain invariant. -/
lemma switch_state_chained (a : AgentState) (new_state : ResponseState)
    (reason : String)
    (hc : chained .MONITORING a.transition_history a.state) :
    chained .MONITORING (switch_state a new_state reason).transition_history
      (switch_state a new_state reason).state := by
  by_cases h : a.state = new_state
  · simpa [switch_state, h] using hc
  · rw [switch_state_of_ne a new_state reason h]
    exact chained_append _ _ _ _ _ hc h

/-- `_react` preserves the chain invariant: every state change it makes
goes through `_switch_state`. -/
lemma react_chained (a : AgentState) (events : List DerivedEvent)
    (hc : chained .MONITORING a.transition_history a.state) :
    chained .MONITORING (react a events).transition_history
      (react a events).state := by
  unfold react
  split
  · split
    · exact switch_state_chained _ _ _ hc
    · exact hc
  · dsimp only
    repeat' split
    all_goals
      repeat (first
        | assumption
        | apply switch_state_chained)

/-- The per-tick loop of the agent's FSM: fold `_react` over the event
lists of successive ticks. -/
def runReact (a : AgentState) : List (List DerivedEvent) → AgentState
  | [] => a
  | events :: rest => runReact (react a events) rest

/-- `runReact` from any chained agent state stays chained. -/
lemma runReact_chained (a : AgentState) (ticks : List (List DerivedEvent))
    (hc : chained .MONITORING a.transition_history a.state) :
    chained .MONITORING (runReact a ticks).transition_history
      (runReact a ticks).state := by
  induction ticks generalizing a with
  | nil => exact hc
  | cons events rest ih => exact ih _ (react_chained a events hc)

/-- C10: after any sequence of ticks from the freshly constructed
agent, the transition history is a chain — the first record leaves
MONITORING, every record's from-state is the previous record's
to-state, no record is a self-loop, and the last record's to-state is
the agent's current state; moreover an attempted self-transition
returns the agent unchanged, so it is never logged. -/
theorem C10_history_chain (ticks : List (List DerivedEvent)) :
    chained .MONITORING (runReact initAgent ticks).transition_history
      (runReact initAgent ticks).state ∧
    ∀ (a : AgentState) (reason : String),
      switch_state a a.state reason = a := by
  refine ⟨runReact_chained initAgent ticks rfl, fun a reason => ?_⟩
  simp [switch_state]

/-! ### Ordering of derived events -/

/-- Rank of an event type in the claimed type-by-type ordering
TEMP_SPIKE, WATER_RISE, DISASTER_DETECTED, SEVERITY_ESCALATION,
RESOURCE_SHORTAGE. -/
def typeRank : EventType → Nat
  | .TEMP_SPIKE => 0
  | .WATER_RISE => 1
  | .DISASTER_DETECTED => 2
  | .SEVERITY_ESCALATION => 3
  | .RESOURCE_SHORTAGE => 4

/-- A CRITICAL earthquake at Accra, first in the local catalog. -/
def quakeCritAccra : DisasterEvent :=
  { event_id := 1, disaster_type := .EARTHQUAKE, location := accra
    severity := .CRITICAL, affected_area := 10, casualties := 10
    infrastructure_damage := 30, medical_kits := 50, food_packages := 100
    water_bottles := 200, rescue_teams := 5 }

/-- A LOW flood at Accra, second in the local catalog. -/
def floodLowAccra : DisasterEvent :=
  { event_id := 2, disaster_type := .FLOOD, location := accra
    severity := .LOW, affected_area := 5, casualties := 2
    infrastructure_damage := 10, medical_kits := 20, food_packages := 60
    water_bottles := 150, rescue_teams := 4 }

/-- A calm Accra percept carrying the two disasters above. -/
def perceptTwoDisasters : EnvironmentPercept :=
  { timestamp := 0, location := accra, temperature := 30, humidity := 70
    wind_speed := 10, air_quality := 100, seismic_activity := 5
    water_level := 0, smoke_detected := false
    active_disasters := [quakeCritAccra, floodLowAccra] }

/-- C3 fails as stated: with two local disasters whose first is
CRITICAL, the deriver emits DISASTER_DETECTED, SEVERITY_ESCALATION,
DISASTER_DETECTED — the second detection comes after the first
disaster's escalation, so the output is not grouped type-by-type
(all detections first) as the claim requires. -/
theorem C3_ordering_counterexample :
    ((derive_events [] [perceptTwoDisasters]).1.map DerivedEvent.etype) =
      [.DISASTER_DETECTED, .SEVERITY_ESCALATION, .DISASTER_DETECTED] ∧
    ¬ List.Sorted (fun a b => typeRank a ≤ typeRank b)
        ((derive_events [] [perceptTwoDisasters]).1.map DerivedEvent.etype) := by
  have h42 : ¬ (42 : ℚ) ≤ 30 := by norm_num
  have h15 : ¬ (3 : ℚ)/2 ≤ 0 := by norm_num
  have h : ((derive_events [] [perceptTwoDisasters]).1.map DerivedEvent.etype) =
      [.DISASTER_DETECTED, .SEVERITY_ESCALATION, .DISASTER_DETECTED] := by
    simp +decide [derive_events, deriveDisasterEvents, perceptTwoDisasters,
      quakeCritAccra, floodLowAccra, Severity.value, h42, h15]
  rw [h]
  exact ⟨rfl, by decide⟩

/-- The deriver processes disaster lists block-by-block: the events for
`ds1 ++ ds2` are the events for `ds1` followed by the events for `ds2`
under the seen-set left by `ds1`. -/
lemma deriveDisasterEvents_append (loc : String) (seen : List Nat)
    (ds1 ds2 : List DisasterEvent) :
    deriveDisasterEvents loc seen (ds1 ++ ds2) =
      ((deriveDisasterEvents loc seen ds1).1 ++
        (deriveDisasterEvents loc (deriveDisasterEvents loc seen ds1).2 ds2).1,
       (deriveDisasterEvents loc (deriveDisasterEvents loc seen ds1).2 ds2).2) := by
  induction ds1 generalizing seen with
  | nil => simp [deriveDisasterEvents]
  | cons d ds ih =>
    simp only [List.cons_append, deriveDisasterEvents]
    simp [ih, List.append_assoc]

/-- The deriver processes percept lists block-by-block: the events for
`ps1 ++ ps2` are the events for `ps1` followed by the events for `ps2`
under the seen-set left by `ps1`. -/
lemma derive_events_append (seen : List Nat)
    (ps1 ps2 : List EnvironmentPercept) :
    derive_events seen (ps1 ++ ps2) =
      ((derive_events seen ps1).1 ++
        (derive_events (derive_events seen ps1).2 ps2).1,
       (derive_events (derive_events seen ps1).2 ps2).2) := by
  induction ps1 generalizing seen with
  | nil => simp [derive_events]
  | cons p ps ih =>
    simp only [List.cons_append, derive_events]
    simp [ih, List.append_assoc]

/-- C3 amended: events come location-by-location in the order the
percepts are given (i); within one location the block is TEMP_SPIKE,
then WATER_RISE, then the disaster-linked events (ii); and the
disaster-linked events come disaster-by-disaster in catalog order
(iii), each disaster contributing DISASTER_DETECTED (when unseen),
then SEVERITY_ESCALATION, then RESOURCE_SHORTAGE (iv) — rather than
all detections before all escalations before all shortages as
originally claimed. -/
theorem C3_ordering (seen : List Nat) (ps1 ps2 : List EnvironmentPercept)
    (loc : String) (seenD : List Nat) (ds1 ds2 : List DisasterEvent)
    (p : EnvironmentPercept) (d : DisasterEvent) :
    (derive_events seen (ps1 ++ ps2)).1 =
      (derive_events seen ps1).1 ++
        (derive_events (derive_events seen ps1).2 ps2).1 ∧
    (derive_events seen [p]).1 =
      (if (42 : ℚ) ≤ p.temperature then [⟨.TEMP_SPIKE, p.location.name, none⟩]
        else []) ++
      (if (3 : ℚ)/2 ≤ p.water_level then [⟨.WATER_RISE, p.location.name, none⟩]
        else []) ++
      (deriveDisasterEvents p.location.name seen p.active_disasters).1 ∧
    (deriveDisasterEvents loc seenD (ds1 ++ ds2)).1 =
      (deriveDisasterEvents loc seenD ds1).1 ++
        (deriveDisasterEvents loc (deriveDisasterEvents loc seenD ds1).2
          ds2).1 ∧
    (deriveDisasterEvents loc seenD [d]).1 =
      (if seenD.contains d.event_id then []
        else [⟨.DISASTER_DETECTED, loc, some d⟩]) ++
      (if Severity.CRITICAL.value ≤ d.severity.value then
        [⟨.SEVERITY_ESCALATION, loc, some d⟩] else []) ++
      (if 12 ≤ d.rescue_teams then [⟨.RESOURCE_SHORTAGE, loc, some d⟩]
        else []) := by
  refine ⟨by rw [derive_events_append], ?_, by rw [deriveDisasterEvents_append],
    ?_⟩
  · simp [derive_events]
  · by_cases hs : d.event_id ∈ seenD <;>
      simp [deriveDisasterEvents, hs]

/-! ### Deduplication of DISASTER_DETECTED by the seen-set -/

/-- Is this event a DISASTER_DETECTED for disaster id `i`? -/
def isDetectedFor (i : Nat) (e : DerivedEvent) : Bool :=
  decide (e.etype = .DISASTER_DETECTED ∧
    e.disaster.map DisasterEvent.event_id = some i)

/-- Number of DISASTER_DETECTED events for id `i` in an event list. -/
def detectedCount (i : Nat) (evs : List DerivedEvent) : Nat :=
  (evs.filter (isDetectedFor i)).length

/-- Is this event a SEVERITY_ESCALATION? -/
def isEscalation (e : DerivedEvent) : Bool :=
  decide (e.etype = .SEVERITY_ESCALATION)

/-- Is this event a RESOURCE_SHORTAGE? -/
def isShortage (e : DerivedEvent) : Bool :=
  decide (e.etype = .RESOURCE_SHORTAGE)

/-- Does a disaster with id `i` occur in the list? -/
def occursId (i : Nat) (ds : List DisasterEvent) : Bool :=
  ds.any (fun d => d.event_id == i)

/-- Does a disaster with id `i` occur in some percept of the list? -/
def occursIn (i : Nat) (ps : List EnvironmentPercept) : Bool :=
  ps.any (fun p => occursId i p.active_disasters)

/-- The SEVERITY_ESCALATION events one disaster list produces:
one per disaster with severity ≥ CRITICAL, independent of the
seen-set. -/
def escSpecD (loc : String) (ds : List DisasterEvent) : List DerivedEvent :=
  (ds.filter (fun d => decide (Severity.CRITICAL.value ≤ d.severity.value))).map
    (fun d => ⟨.SEVERITY_ESCALATION, loc, some d⟩)

/-- The RESOURCE_SHORTAGE events one disaster list produces: one per
disaster with rescue-team requirement ≥ 12, independent of the
seen-set. -/
def shortSpecD (loc : String) (ds : List DisasterEvent) : List DerivedEvent :=
  (ds.filter (fun d => decide (12 ≤ d.rescue_teams))).map
    (fun d => ⟨.RESOURCE_SHORTAGE, loc, some d⟩)

/-- The SEVERITY_ESCALATION events a percept list produces. -/
def escSpec : List EnvironmentPercept → List DerivedEvent
  | [] => []
  | p :: ps => escSpecD p.location.name p.active_disasters ++ escSpec ps

/-- The RESOURCE_SHORTAGE events a percept list produces. -/
def shortSpec : List EnvironmentPercept → List DerivedEvent
  | [] => []
  | p :: ps => shortSpecD p.location.name p.active_disasters ++ shortSpec ps

/-- `detectedCount` adds over concatenation. -/
lemma detectedCount_append (i : Nat) (a b : List DerivedEvent) :
    detectedCount i (a ++ b) = detectedCount i a + detectedCount i b := by
  simp [detectedCount, List.filter_append]

/-- Unfolding of the per-disaster loop when the head is already
seen. -/
lemma dde_cons_of_mem (loc : String) (seen : List Nat) (d : DisasterEvent)
    (ds : List DisasterEvent) (h : d.event_id ∈ seen) :
    deriveDisasterEvents loc seen (d :: ds) =
      ((if Severity.CRITICAL.value ≤ d.severity.value then
          [(⟨.SEVERITY_ESCALATION, loc, some d⟩ : DerivedEvent)] else []) ++
        (if 12 ≤ d.rescue_teams then
          [(⟨.RESOURCE_SHORTAGE, loc, some d⟩ : DerivedEvent)] else []) ++
        (deriveDisasterEvents loc seen ds).1,
       (deriveDisasterEvents loc seen ds).2) := by
  simp [deriveDisasterEvents, h]

/-- Unfolding of the per-disaster loop when the head is unseen. -/
lemma dde_cons_of_not_mem (loc : String) (seen : List Nat)
    (d : DisasterEvent) (ds : List DisasterEvent) (h : d.event_id ∉ seen) :
    deriveDisasterEvents loc seen (d :: ds) =
      ((⟨.DISASTER_DETECTED, loc, some d⟩ : DerivedEvent) ::
        ((if Severity.CRITICAL.value ≤ d.severity.value then
          [(⟨.SEVERITY_ESCALATION, loc, some d⟩ : DerivedEvent)] else []) ++
         (if 12 ≤ d.rescue_teams then
          [(⟨.RESOURCE_SHORTAGE, loc, some d⟩ : DerivedEvent)] else []) ++
         (deriveDisasterEvents loc (seen ++ [d.event_id]) ds).1),
       (deriveDisasterEvents loc (seen ++ [d.event_id]) ds).2) := by
  simp [deriveDisasterEvents, h]

/-- An escalation/shortage block never counts as a detection. -/
lemma detectedCount_block (i : Nat) (c : Prop) [Decidable c]
    (e : DerivedEvent) (h : isDetectedFor i e = false) :
    detectedCount i (if c then [e] else []) = 0 := by
  split <;> simp [detectedCount, h]

/-- The escalation event is not a detection. -/
lemma isDetectedFor_esc (i : Nat) (loc : String) (d : DisasterEvent) :
    isDetectedFor i (⟨.SEVERITY_ESCALATION, loc, some d⟩ : DerivedEvent) =
      false := by
  simp [isDetectedFor]

/-- The shortage event is not a detection. -/
lemma isDetectedFor_short (i : Nat) (loc : String) (d : DisasterEvent) :
    isDetectedFor i (⟨.RESOURCE_SHORTAGE, loc, some d⟩ : DerivedEvent) =
      false := by
  simp [isDetectedFor]

/-- The per-disaster loop only grows the seen-set. -/
lemma dde_seen_mono (loc : String) (ds : List DisasterEvent)
    (seen : List Nat) (i : Nat) (h : i ∈ seen) :
    i ∈ (deriveDisasterEvents loc seen ds).2 := by
  induction ds generalizing seen with
  | nil => exact h
  | cons d ds ih =>
    by_cases hc : d.event_id ∈ seen
    · rw [dde_cons_of_mem loc seen d ds hc]
      exact ih seen h
    · rw [dde_cons_of_not_mem loc seen d ds hc]
      exact ih _ (List.mem_append_left _ h)

/-- An id already in the seen-set is never detected again by the
per-disaster loop. -/
lemma dde_detected_of_seen (loc : String) (ds : List DisasterEvent)
    (seen : List Nat) (i : Nat) (h : i ∈ seen) :
    detectedCount i (deriveDisasterEvents loc seen ds).1 = 0 := by
  induction ds generalizing seen with
  | nil => rfl
  | cons d ds ih =>
    by_cases hc : d.event_id ∈ seen
    · rw [dde_cons_of_mem loc seen d ds hc]
      simp only [detectedCount_append,
        detectedCount_block i _ _ (isDetectedFor_esc i loc d),
        detectedCount_block i _ _ (isDetectedFor_short i loc d),
        ih seen h]
    · rw [dde_cons_of_not_mem loc seen d ds hc]
      have hid : d.event_id ≠ i := fun he => hc (he ▸ h)
      have hdet : isDetectedFor i
          (⟨.DISASTER_DETECTED, loc, some d⟩ : DerivedEvent) = false := by
        simp [isDetectedFor, hid]
      simp only [detectedCount, List.filter_cons, hdet, Bool.false_eq_true,
        if_neg, ite_false]
      have := ih (seen ++ [d.event_id]) (List.mem_append_left _ h)
      simp only [detectedCount] at this ⊢
      simp only [List.filter_append, List.length_append, this]
      have h0 := detectedCount_block i
        (Severity.CRITICAL.value ≤ d.severity.value)
        (⟨.SEVERITY_ESCALATION, loc, some d⟩ : DerivedEvent)
        (isDetectedFor_esc i loc d)
      have h1 := detectedCount_block i (12 ≤ d.rescue_teams)
        (⟨.RESOURCE_SHORTAGE, loc, some d⟩ : DerivedEvent)
        (isDetectedFor_short i loc d)
      simp only [detectedCount] at h0 h1
      simp [h0, h1]

/-- When id `i` does not occur in the disaster list, the loop emits no
detection for it and adds it to the seen-set only if it was already
there. -/
lemma dde_not_occur (loc : String) (ds : List DisasterEvent)
    (seen : List Nat) (i : Nat) (hocc : occursId i ds = false) :
    detectedCount i (deriveDisasterEvents loc seen ds).1 = 0 ∧
    (i ∈ (deriveDisasterEvents loc seen ds).2 ↔ i ∈ seen) := by
  induction ds generalizing seen with
  | nil => exact ⟨rfl, Iff.rfl⟩
  | cons d ds ih =>
    have hid : d.event_id ≠ i := by
      intro he
      simp [occursId, he] at hocc
    have hocc' : occursId i ds = false := by
      simp [occursId] at hocc ⊢
      exact fun x hx => hocc.2 x hx
    by_cases hc : d.event_id ∈ seen
    · rw [dde_cons_of_mem loc seen d ds hc]
      obtain ⟨i1, i2⟩ := ih seen hocc'
      refine ⟨?_, i2⟩
      simp only [detectedCount_append,
        detectedCount_block i _ _ (isDetectedFor_esc i loc d),
        detectedCount_block i _ _ (isDetectedFor_short i loc d), i1]
    · rw [dde_cons_of_not_mem loc seen d ds hc]
      obtain ⟨i1, i2⟩ := ih (seen ++ [d.event_id]) hocc'
      have hdet : isDetectedFor i
          (⟨.DISASTER_DETECTED, loc, some d⟩ : DerivedEvent) = false := by
        simp [isDetectedFor, hid]
      constructor
      · simp only [detectedCount, List.filter_cons, hdet, Bool.false_eq_true,
          if_neg, ite_false, List.filter_append, List.length_append]
        simp only [detectedCount] at i1
        have h0 := detectedCount_block i
          (Severity.CRITICAL.value ≤ d.severity.value)
          (⟨.SEVERITY_ESCALATION, loc, some d⟩ : DerivedEvent)
          (isDetectedFor_esc i loc d)
        have h1 := detectedCount_block i (12 ≤ d.rescue_teams)
          (⟨.RESOURCE_SHORTAGE, loc, some d⟩ : DerivedEvent)
          (isDetectedFor_short i loc d)
        simp only [detectedCount] at h0 h1
        simp [h0, h1, List.filter_append, i1]
      · rw [i2]
        simp [List.mem_append, Ne.symm hid]

/-- An unseen id that occurs in the disaster list is detected exactly
once and ends up in the seen-set. -/
lemma dde_detected_once (loc : String) (ds : List DisasterEvent)
    (seen : List Nat) (i : Nat) (hs : i ∉ seen)
    (hocc : occursId i ds = true) :
    detectedCount i (deriveDisasterEvents loc seen ds).1 = 1 ∧
    i ∈ (deriveDisasterEvents loc seen ds).2 := by
  induction ds generalizing seen with
  | nil => simp [occursId] at hocc
  | cons d ds ih =>
    by_cases hid : d.event_id = i
    · have hc : d.event_id ∉ seen := hid ▸ hs
      rw [dde_cons_of_not_mem loc seen d ds hc]
      have hdet : isDetectedFor i
          (⟨.DISASTER_DETECTED, loc, some d⟩ : DerivedEvent) = true := by
        simp [isDetectedFor, hid]
      have hmem : i ∈ seen ++ [d.event_id] := by
        simp [hid]
      constructor
      · simp only [detectedCount, List.filter_cons, hdet, if_pos,
          ite_true, List.length_cons, List.filter_append, List.length_append]
        have h0 := detectedCount_block i
          (Severity.CRITICAL.value ≤ d.severity.value)
          (⟨.SEVERITY_ESCALATION, loc, some d⟩ : DerivedEvent)
          (isDetectedFor_esc i loc d)
        have h1 := detectedCount_block i (12 ≤ d.rescue_teams)
          (⟨.RESOURCE_SHORTAGE, loc, some d⟩ : DerivedEvent)
          (isDetectedFor_short i loc d)
        have h2 := dde_detected_of_seen loc ds (seen ++ [d.event_id]) i hmem
        simp only [detectedCount] at h0 h1 h2
        simp [h0, h1, h2]
      · exact dde_seen_mono loc ds _ i hmem
    · have hbeq : (d.event_id == i) = false := by simp [hid]
      have hocc' : occursId i ds = true := by
        simpa [occursId, hbeq] using hocc
      by_cases hc : d.event_id ∈ seen
      · rw [dde_cons_of_mem loc seen d ds hc]
        obtain ⟨i1, i2⟩ := ih seen hs hocc'
        refine ⟨?_, i2⟩
        simp only [detectedCount_append,
          detectedCount_block i _ _ (isDetectedFor_esc i loc d),
          detectedCount_block i _ _ (isDetectedFor_short i loc d), i1]
      · rw [dde_cons_of_not_mem loc seen d ds hc]
        have hs' : i ∉ seen ++ [d.event_id] := by
          simp [List.mem_append, hs, Ne.symm hid]
        obtain ⟨i1, i2⟩ := ih (seen ++ [d.event_id]) hs' hocc'
        have hdet : isDetectedFor i
            (⟨.DISASTER_DETECTED, loc, some d⟩ : DerivedEvent) = false := by
          simp [isDetectedFor, hid]
        constructor
        · simp only [detectedCount, List.filter_cons, hdet, Bool.false_eq_true,
            if_neg, ite_false, List.filter_append, List.length_append]
          have h0 := detectedCount_block i
            (Severity.CRITICAL.value ≤ d.severity.value)
            (⟨.SEVERITY_ESCALATION, loc, some d⟩ : DerivedEvent)
            (isDetectedFor_esc i loc d)
          have h1 := detectedCount_block i (12 ≤ d.rescue_teams)
            (⟨.RESOURCE_SHORTAGE, loc, some d⟩ : DerivedEvent)
            (isDetectedFor_short i loc d)
          simp only [detectedCount] at h0 h1 i1
          simp [h0, h1, i1]
        · exact i2

/-- The escalation events of the per-disaster loop do not depend on
the seen-set: they are exactly one per ≥-CRITICAL disaster. -/
lemma dde_esc_spec (loc : String) (ds : List DisasterEvent)
    (seen : List Nat) :
    (deriveDisasterEvents loc seen ds).1.filter isEscalation =
      escSpecD loc ds := by
  induction ds generalizing seen with
  | nil => rfl
  | cons d ds ih =>
    by_cases hc : d.event_id ∈ seen
    · rw [dde_cons_of_mem loc seen d ds hc]
      by_cases hcrit : Severity.CRITICAL.value ≤ d.severity.value <;>
        by_cases hsh : 12 ≤ d.rescue_teams <;>
        simp [escSpecD, List.filter_append, List.filter_cons, isEscalation,
          hcrit, hsh, ih]
    · rw [dde_cons_of_not_mem loc seen d ds hc]
      by_cases hcrit : Severity.CRITICAL.value ≤ d.severity.value <;>
        by_cases hsh : 12 ≤ d.rescue_teams <;>
        simp [escSpecD, List.filter_append, List.filter_cons, isEscalation,
          hcrit, hsh, ih]

/-- The shortage events of the per-disaster loop do not depend on the
seen-set: they are exactly one per disaster needing ≥ 12 rescue
teams. -/
lemma dde_short_spec (loc : String) (ds : List DisasterEvent)
    (seen : List Nat) :
    (deriveDisasterEvents loc seen ds).1.filter isShortage =
      shortSpecD loc ds := by
  induction ds generalizing seen with
  | nil => rfl
  | cons d ds ih =>
    by_cases hc : d.event_id ∈ seen
    · rw [dde_cons_of_mem loc seen d ds hc]
      by_cases hcrit : Severity.CRITICAL.value ≤ d.severity.value <;>
        by_cases hsh : 12 ≤ d.rescue_teams <;>
        simp [shortSpecD, List.filter_append, List.filter_cons, isShortage,
          hcrit, hsh, ih]
    · rw [dde_cons_of_not_mem loc seen d ds hc]
      by_cases hcrit : Severity.CRITICAL.value ≤ d.severity.value <;>
        by_cases hsh : 12 ≤ d.rescue_teams <;>
        simp [shortSpecD, List.filter_append, List.filter_cons, isShortage,
          hcrit, hsh, ih]

/-- Unfolding of the per-percept loop at a cons. -/
lemma derive_cons (seen : List Nat) (p : EnvironmentPercept)
    (ps : List EnvironmentPercept) :
    derive_events seen (p :: ps) =
      ((if (42 : ℚ) ≤ p.temperature then
          [(⟨.TEMP_SPIKE, p.location.name, none⟩ : DerivedEvent)] else []) ++
       (if (3 : ℚ)/2 ≤ p.water_level then
          [(⟨.WATER_RISE, p.location.name, none⟩ : DerivedEvent)] else []) ++
       (deriveDisasterEvents p.location.name seen p.active_disasters).1 ++
       (derive_events
          (deriveDisasterEvents p.location.name seen p.active_disasters).2
          ps).1,
       (derive_events
          (deriveDisasterEvents p.location.name seen p.active_disasters).2
          ps).2) := rfl

/-- The TEMP_SPIKE event is not a detection. -/
lemma isDetectedFor_temp (i : Nat) (loc : String) :
    isDetectedFor i (⟨.TEMP_SPIKE, loc, none⟩ : DerivedEvent) = false := by
  simp [isDetectedFor]

/-- The WATER_RISE event is not a detection. -/
lemma isDetectedFor_water (i : Nat) (loc : String) :
    isDetectedFor i (⟨.WATER_RISE, loc, none⟩ : DerivedEvent) = false := by
  simp [isDetectedFor]

/-- The per-percept loop only grows the seen-set. -/
lemma derive_seen_mono (seen : List Nat) (ps : List EnvironmentPercept)
    (i : Nat) (h : i ∈ seen) : i ∈ (derive_events seen ps).2 := by
  induction ps generalizing seen with
  | nil => exact h
  | cons p ps ih =>
    rw [derive_cons]
    exact ih _ (dde_seen_mono p.location.name p.active_disasters seen i h)

/-- An id already in the seen-set is never detected by a derive
call. -/
lemma derive_detected_of_seen (seen : List Nat)
    (ps : List EnvironmentPercept) (i : Nat) (h : i ∈ seen) :
    detectedCount i (derive_events seen ps).1 = 0 := by
  induction ps generalizing seen with
  | nil => rfl
  | cons p ps ih =>
    rw [derive_cons]
    simp only [detectedCount_append,
      detectedCount_block i _ _ (isDetectedFor_temp i p.location.name),
      detectedCount_block i _ _ (isDetectedFor_water i p.location.name),
      dde_detected_of_seen p.location.name p.active_disasters seen i h,
      ih _ (dde_seen_mono p.location.name p.active_disasters seen i h)]

/-- An id occurring in no percept is never detected, and its seen-set
membership is unchanged. -/
lemma derive_not_occur (seen : List Nat) (ps : List EnvironmentPercept)
    (i : Nat) (hocc : occursIn i ps = false) :
    detectedCount i (derive_events seen ps).1 = 0 ∧
    (i ∈ (derive_events seen ps).2 ↔ i ∈ seen) := by
  induction ps generalizing seen with
  | nil => exact ⟨rfl, Iff.rfl⟩
  | cons p ps ih =>
    have h1 : occursId i p.active_disasters = false := by
      simp [occursIn] at hocc
      simpa [occursId] using hocc.1
    have h2 : occursIn i ps = false := by
      simp [occursIn] at hocc ⊢
      exact hocc.2
    obtain ⟨d1, d2⟩ := dde_not_occur p.location.name p.active_disasters seen i h1
    obtain ⟨r1, r2⟩ := ih _ h2
    rw [derive_cons]
    refine ⟨?_, r2.trans d2⟩
    simp only [detectedCount_append,
      detectedCount_block i _ _ (isDetectedFor_temp i p.location.name),
      detectedCount_block i _ _ (isDetectedFor_water i p.location.name),
      d1, r1]

/-- An unseen id occurring in some percept is detected exactly once by
one derive call, and ends up in the returned seen-set. -/
lemma derive_detected_once (seen : List Nat) (ps : List EnvironmentPercept)
    (i : Nat) (hs : i ∉ seen) (hocc : occursIn i ps = true) :
    detectedCount i (derive_events seen ps).1 = 1 ∧
    i ∈ (derive_events seen ps).2 := by
  induction ps generalizing seen with
  | nil => simp [occursIn] at hocc
  | cons p ps ih =>
    rw [derive_cons]
    by_cases h1 : occursId i p.active_disasters = true
    · obtain ⟨d1, d2⟩ :=
        dde_detected_once p.location.name p.active_disasters seen i hs h1
      refine ⟨?_, derive_seen_mono _ ps i d2⟩
      simp only [detectedCount_append,
        detectedCount_block i _ _ (isDetectedFor_temp i p.location.name),
        detectedCount_block i _ _ (isDetectedFor_water i p.location.name),
        d1, derive_detected_of_seen _ ps i d2]
    · have h1' : occursId i p.active_disasters = false :=
        Bool.not_eq_true _ ▸ eq_false_of_ne_true h1
      have h2 : occursIn i ps = true := by
        simpa [occursIn, h1'] using hocc
      obtain ⟨d1, d2⟩ := dde_not_occur p.location.name p.active_disasters seen i h1'
      have hs' : i ∉ (deriveDisasterEvents p.location.name seen
          p.active_disasters).2 := fun hmem => hs (d2.mp hmem)
      obtain ⟨r1, r2⟩ := ih _ hs' h2
      refine ⟨?_, r2⟩
      simp only [detectedCount_append,
        detectedCount_block i _ _ (isDetectedFor_temp i p.location.name),
        detectedCount_block i _ _ (isDetectedFor_water i p.location.name),
        d1, r1]

/-- The escalation events of a derive call do not depend on the
seen-set. -/
lemma derive_esc_spec (seen : List Nat) (ps : List EnvironmentPercept) :
    (derive_events seen ps).1.filter isEscalation = escSpec ps := by
  induction ps generalizing seen with
  | nil => rfl
  | cons p ps ih =>
    rw [derive_cons]
    have ht : ∀ loc, isEscalation (⟨.TEMP_SPIKE, loc, none⟩ : DerivedEvent) =
        false := fun loc => by simp [isEscalation]
    have hw : ∀ loc, isEscalation (⟨.WATER_RISE, loc, none⟩ : DerivedEvent) =
        false := fun loc => by simp [isEscalation]
    by_cases ha : (42 : ℚ) ≤ p.temperature <;>
      by_cases hb : (3 : ℚ)/2 ≤ p.water_level <;>
      simp [escSpec, List.filter_append, List.filter_cons, ha, hb, ht, hw,
        dde_esc_spec, ih]

/-- The shortage events of a derive call do not depend on the
seen-set. -/
lemma derive_short_spec (seen : List Nat) (ps : List EnvironmentPercept) :
    (derive_events seen ps).1.filter isShortage = shortSpec ps := by
  induction ps generalizing seen with
  | nil => rfl
  | cons p ps ih =>
    rw [derive_cons]
    have ht : ∀ loc, isShortage (⟨.TEMP_SPIKE, loc, none⟩ : DerivedEvent) =
        false := fun loc => by simp [isShortage]
    have hw : ∀ loc, isShortage (⟨.WATER_RISE, loc, none⟩ : DerivedEvent) =
        false := fun loc => by simp [isShortage]
    by_cases ha : (42 : ℚ) ≤ p.temperature <;>
      by_cases hb : (3 : ℚ)/2 ≤ p.water_level <;>
      simp [shortSpec, List.filter_append, List.filter_cons, ha, hb, ht, hw,
        dde_short_spec, ih]

/-- C5: a DISASTER_DETECTED is emitted exactly once per disaster id —
an id already in the seen-set is never detected; an unseen id present
in the percepts is detected exactly once, is added to the returned
seen-set, and a second derive call over the same percepts with that
returned seen-set detects it zero times; while the SEVERITY_ESCALATION
and RESOURCE_SHORTAGE events are functions of the percepts alone
(escSpec/shortSpec), so they are re-emitted identically on every call,
not gated by the seen-set. -/
theorem C5_detected_once (seen : List Nat) (ps : List EnvironmentPercept)
    (i : Nat) :
    (i ∈ seen → detectedCount i (derive_events seen ps).1 = 0) ∧
    (i ∉ seen → occursIn i ps = true →
      detectedCount i (derive_events seen ps).1 = 1 ∧
      i ∈ (derive_events seen ps).2 ∧
      detectedCount i (derive_events (derive_events seen ps).2 ps).1 = 0) ∧
    (derive_events seen ps).1.filter isEscalation = escSpec ps ∧
    (derive_events seen ps).1.filter isShortage = shortSpec ps := by
  refine ⟨fun h => derive_detected_of_seen seen ps i h, fun hs hocc => ?_,
    derive_esc_spec seen ps, derive_short_spec seen ps⟩
  obtain ⟨c1, c2⟩ := derive_detected_once seen ps i hs hocc
  exact ⟨c1, c2, derive_detected_of_seen _ ps i c2⟩

/-- Witness for C5: with an empty seen-set, the Accra percept carrying
disaster id 1 yields exactly one detection of id 1, and a second
identical derive call yields none. -/
theorem C5_detected_once_witness :
    detectedCount 1 (derive_events [] [perceptTwoDisasters]).1 = 1 ∧
    1 ∈ (derive_events [] [perceptTwoDisasters]).2 ∧
    detectedCount 1
      (derive_events (derive_events [] [perceptTwoDisasters]).2
        [perceptTwoDisasters]).1 = 0 :=
  (C5_detected_once [] [perceptTwoDisasters] 1).2.1 (by simp)
    (by simp [occursIn, occursId, perceptTwoDisasters, quakeCritAccra])

/-! ### Priority selection -/

/-- Python's left-to-right `max` scan returns the first element whose
key is maximal: the scanned list splits around the result, everything
before it has a strictly smaller key, and nothing in the list has a
strictly larger key. -/
lemma pyMaxBy_first_max (best : DisasterEvent) (ds : List DisasterEvent) :
    ∃ l1 l2, best :: ds = l1 ++ pyMaxBy best ds :: l2 ∧
      (∀ x ∈ l1, priorityKey x < priorityKey (pyMaxBy best ds)) ∧
      ∀ x ∈ best :: ds, ¬ priorityKey (pyMaxBy best ds) < priorityKey x := by
  induction ds generalizing best with
  | nil =>
    refine ⟨[], [], rfl, fun x hx => absurd hx (List.not_mem_nil x), ?_⟩
    intro x hx
    rw [List.mem_singleton] at hx
    subst hx
    exact lt_irrefl _
  | cons d ds ih =>
    have hstep : pyMaxBy best (d :: ds) =
        pyMaxBy (if priorityKey best < priorityKey d then d else best) ds :=
      rfl
    by_cases h : priorityKey best < priorityKey d
    · rw [hstep, if_pos h]
      obtain ⟨l1, l2, heq, hl1, hall⟩ := ih d
      have hdr : priorityKey d ≤ priorityKey (pyMaxBy d ds) :=
        not_lt.mp (hall d (List.mem_cons_self d ds))
      have hbr : priorityKey best < priorityKey (pyMaxBy d ds) :=
        lt_of_lt_of_le h hdr
      refine ⟨best :: l1, l2, by rw [List.cons_append, ← heq], ?_, ?_⟩
      · intro x hx
        rcases List.mem_cons.mp hx with hx | hx
        · exact hx ▸ hbr
        · exact hl1 x hx
      · intro x hx
        rcases List.mem_cons.mp hx with hx | hx
        · exact hx ▸ lt_asymm hbr
        · exact hall x hx
    · rw [hstep, if_neg h]
      obtain ⟨l1, l2, heq, hl1, hall⟩ := ih best
      have hdb : priorityKey d ≤ priorityKey best := not_lt.mp h
      cases l1 with
      | nil =>
        rw [List.nil_append] at heq
        have hrb : pyMaxBy best ds = best := (List.cons.injEq _ _ _ _ ▸ heq).1.symm
        have hl2 : ds = l2 := (List.cons.injEq _ _ _ _ ▸ heq).2
        refine ⟨[], d :: l2, ?_, fun x hx => absurd hx (List.not_mem_nil x), ?_⟩
        · rw [List.nil_append, hrb, ← hl2]
        · intro x hx
          rcases List.mem_cons.mp hx with hx | hx
          · rw [hx, hrb]
            exact lt_irrefl _
          rcases List.mem_cons.mp hx with hx | hx
          · rw [hx, hrb]
            exact h
          · exact hall x (List.mem_cons_of_mem best hx)
      | cons b l1' =>
        rw [List.cons_append] at heq
        have hb : best = b := (List.cons.injEq _ _ _ _ ▸ heq).1
        have hds : ds = l1' ++ pyMaxBy best ds :: l2 :=
          (List.cons.injEq _ _ _ _ ▸ heq).2
        have hbmem : best ∈ b :: l1' := by
          rw [← hb]
          exact List.mem_cons_self _ _
        have hbr : priorityKey best < priorityKey (pyMaxBy best ds) :=
          hl1 best hbmem
        refine ⟨best :: d :: l1', l2, ?_, ?_, ?_⟩
        · rw [List.cons_append, List.cons_append, ← hds]
        · intro x hx
          rcases List.mem_cons.mp hx with hx | hx
          · exact hx ▸ hbr
          rcases List.mem_cons.mp hx with hx | hx
          · exact hx ▸ lt_of_le_of_lt hdb hbr
          · exact hl1 x (List.mem_cons_of_mem b hx)
        · intro x hx
          rcases List.mem_cons.mp hx with hx | hx
          · rw [hx]
            exact lt_asymm hbr
          rcases List.mem_cons.mp hx with hx | hx
          · rw [hx]
            exact lt_asymm (lt_of_le_of_lt hdb hbr)
          · exact hall x (List.mem_cons_of_mem best hx)

/-- C4: when `_prioritize_disaster` returns a disaster, it is the one
maximizing the lexicographic key (severity ordinal, casualties,
infrastructure damage) over all disaster references carried by the
tick's events, and among equal keys the first in derivation order
wins: the collected list splits around the winner with every earlier
entry strictly smaller and no entry strictly larger. -/
theorem C4_priority_max (events : List DerivedEvent) (d : DisasterEvent)
    (h : prioritize_disaster events = some d) :
    ∃ l1 l2,
      events.filterMap (fun e => e.disaster) = l1 ++ d :: l2 ∧
      (∀ x ∈ l1, priorityKey x < priorityKey d) ∧
      ∀ x ∈ events.filterMap (fun e => e.disaster),
        ¬ priorityKey d < priorityKey x := by
  unfold prioritize_disaster at h
  cases hfm : events.filterMap (fun e => e.disaster) with
  | nil => rw [hfm] at h; cases h
  | cons d0 ds =>
    rw [hfm] at h
    have hd : pyMaxBy d0 ds = d := Option.some.inj h
    obtain ⟨l1, l2, heq, hl1, hall⟩ := pyMaxBy_first_max d0 ds
    rw [hd] at heq hl1 hall
    exact ⟨l1, l2, heq, hl1, hall⟩

/-- A LOW-severity disaster with 5 casualties. -/
def dLowC4 : DisasterEvent :=
  { event_id := 10, disaster_type := .FLOOD, location := accra
    severity := .LOW, affected_area := 1, casualties := 5
    infrastructure_damage := 10, medical_kits := 20, food_packages := 60
    water_bottles := 150, rescue_teams := 4 }

/-- A HIGH-severity disaster with 100 casualties. -/
def dHighC4 : DisasterEvent :=
  { event_id := 11, disaster_type := .FIRE, location := accra
    severity := .HIGH, affected_area := 2, casualties := 100
    infrastructure_damage := 40, medical_kits := 30, food_packages := 70
    water_bottles := 160, rescue_teams := 6 }

/-- A CRITICAL-severity disaster with only 10 casualties. -/
def dCritC4 : DisasterEvent :=
  { event_id := 12, disaster_type := .STORM, location := accra
    severity := .CRITICAL, affected_area := 3, casualties := 10
    infrastructure_damage := 50, medical_kits := 40, food_packages := 80
    water_bottles := 170, rescue_teams := 7 }

/-- Detection events carrying the three C4 disasters. -/
def eventsC4 : List DerivedEvent :=
  [⟨.DISASTER_DETECTED, "Accra", some dLowC4⟩,
   ⟨.DISASTER_DETECTED, "Accra", some dHighC4⟩,
   ⟨.DISASTER_DETECTED, "Accra", some dCritC4⟩]

/-- Witness for C4: among severities {LOW, HIGH, CRITICAL} with
casualties {5, 100, 10}, the CRITICAL disaster is selected despite
having fewer casualties than the HIGH one, and it satisfies the
first-maximum characterization. -/
theorem C4_priority_max_witness :
    prioritize_disaster eventsC4 = some dCritC4 ∧
    ∃ l1 l2,
      eventsC4.filterMap (fun e => e.disaster) = l1 ++ dCritC4 :: l2 ∧
      (∀ x ∈ l1, priorityKey x < priorityKey dCritC4) ∧
      ∀ x ∈ eventsC4.filterMap (fun e => e.disaster),
        ¬ priorityKey dCritC4 < priorityKey x := by
  have h1 : priorityKey dLowC4 < priorityKey dHighC4 := by
    simp [priorityKey, Prod.Lex.lt_iff, dLowC4, dHighC4, Severity.value]
  have h2 : priorityKey dHighC4 < priorityKey dCritC4 := by
    simp [priorityKey, Prod.Lex.lt_iff, dHighC4, dCritC4, Severity.value]
  have hp : prioritize_disaster eventsC4 = some dCritC4 := by
    simp [prioritize_disaster, eventsC4, pyMaxBy, h1, h2]
  exact ⟨hp, C4_priority_max eventsC4 dCritC4 hp⟩

/-! ### Resolution counterexample and spawn bounds -/

/-- Accra conditions after a storm spawn: wind speed at the spawn's
`uniform(50,150)` draw, humidity raised. -/
def windyCond : Cond := { baseCond with wind_speed := 150, humidity := 85 }

/-- An engine whose catalog holds the Accra storm and whose conditions
show its spawn effects. -/
def envStorm : DisasterEnvironment :=
  { event_counter := 1, active_disasters := [stormAccra]
    locations := initialLocations, current_conditions := fun _ => windyCond }

/-- C6 fails as stated: resolving the STORM removes it from the
catalog but resets nothing — `_update_disasters` has reset branches
only for FLOOD, FIRE and EARTHQUAKE — so the wind speed its spawn had
set stays at 150 instead of being reset. -/
theorem C6_reset_counterexample :
    stormAccra.disaster_type = .STORM ∧
    stormAccra ∈ envStorm.active_disasters ∧
    (update_disasters envStorm (fun _ => true)).active_disasters = [] ∧
    ((update_disasters envStorm
        (fun _ => true)).current_conditions "Accra").wind_speed = 150 ∧
    ¬ ((update_disasters envStorm
        (fun _ => true)).current_conditions "Accra").wind_speed = 0 := by
  have hw : ((update_disasters envStorm
      (fun _ => true)).current_conditions "Accra").wind_speed = 150 := by
    simp +decide [update_disasters, envStorm, stormAccra, resetOnResolve,
      windyCond, baseCond, accra]
  refine ⟨rfl, List.mem_cons_self _ _, ?_, hw, ?_⟩
  · simp +decide [update_disasters, envStorm]
  · rw [hw]
    norm_num

/-- Accra conditions after a fire spawn: smoke flag set. -/
def smokyCond : Cond := { baseCond with smoke_detected := true }

/-- A HIGH-severity FIRE at Accra. -/
def fireAccra : DisasterEvent :=
  { event_id := 3, disaster_type := .FIRE, location := accra
    severity := .HIGH, affected_area := 10, casualties := 5
    infrastructure_damage := 30, medical_kits := 50, food_packages := 100
    water_bottles := 200, rescue_teams := 10 }

/-- An engine whose catalog holds the Accra fire and whose conditions
show its smoke. -/
def envFire : DisasterEnvironment :=
  { event_counter := 3, active_disasters := [fireAccra]
    locations := initialLocations, current_conditions := fun _ => smokyCond }

/-- Witness for the amended C6: forcing resolution of the Accra FIRE
clears the smoke flag and removes the disaster from the catalog. -/
theorem C6_resolution_resets_witness :
    ((update_disasters envFire
        (fun _ => true)).current_conditions "Accra").smoke_detected = false ∧
    fireAccra ∉ (update_disasters envFire (fun _ => true)).active_disasters := by
  constructor
  · exact ((C6_resolution_resets envFire (fun _ => true)).2.2.1 fireAccra
      (List.mem_cons_self _ _) rfl).1 rfl
  · intro hmem
    have h := ((C6_resolution_resets envFire (fun _ => true)).1 fireAccra
      (List.mem_cons_self _ _)).mp hmem
    cases h

/-- C8: whenever the magnitude draws of a spawn lie in the ranges the
generator passes to `randint`/`uniform` — casualties in
[0, 50·severity], infrastructure damage in [5·severity, 20·severity],
affected area in [0.5, 50], medical kits in [10,100], food packages in
[50,500], water bottles in [100,1000], rescue teams in [2,20] — the
appended `DisasterEvent` carries those values, so each magnitude obeys
its documented severity-correlated bound and every resource quantity
is a positive integer. -/
theorem C8_spawn_bounds (s : DisasterEnvironment) (sp : SpawnDraws)
    (hcas : sp.casualties ≤ sp.severity.value * 50)
    (hinf1 : (sp.severity.value : ℚ) * 5 ≤ sp.infrastructure_damage)
    (hinf2 : sp.infrastructure_damage ≤ (sp.severity.value : ℚ) * 20)
    (harea1 : (1 : ℚ)/2 ≤ sp.affected_area) (harea2 : sp.affected_area ≤ 50)
    (hmed1 : 10 ≤ sp.medical_kits) (hmed2 : sp.medical_kits ≤ 100)
    (hfood1 : 50 ≤ sp.food_packages) (hfood2 : sp.food_packages ≤ 500)
    (hwat1 : 100 ≤ sp.water_bottles) (hwat2 : sp.water_bottles ≤ 1000)
    (hres1 : 2 ≤ sp.rescue_teams) (hres2 : sp.rescue_teams ≤ 20) :
    ∃ e : DisasterEvent,
      (generate_disaster s sp).active_disasters =
        s.active_disasters ++ [e] ∧
      e.severity = sp.severity ∧
      e.casualties ≤ e.severity.value * 50 ∧
      (e.severity.value : ℚ) * 5 ≤ e.infrastructure_damage ∧
      e.infrastructure_damage ≤ (e.severity.value : ℚ) * 20 ∧
      (1 : ℚ)/2 ≤ e.affected_area ∧ e.affected_area ≤ 50 ∧
      0 < e.medical_kits ∧ 10 ≤ e.medical_kits ∧ e.medical_kits ≤ 100 ∧
      0 < e.food_packages ∧ 50 ≤ e.food_packages ∧ e.food_packages ≤ 500 ∧
      0 < e.water_bottles ∧ 100 ≤ e.water_bottles ∧ e.water_bottles ≤ 1000 ∧
      0 < e.rescue_teams ∧ 2 ≤ e.rescue_teams ∧ e.rescue_teams ≤ 20 := by
  refine ⟨{ event_id := s.event_counter + 1
            disaster_type := sp.disaster_type
            location := sp.location
            severity := sp.severity
            affected_area := sp.affected_area
            casualties := sp.casualties
            infrastructure_damage := sp.infrastructure_damage
            medical_kits := sp.medical_kits
            food_packages := sp.food_packages
            water_bottles := sp.water_bottles
            rescue_teams := sp.rescue_teams },
    rfl, rfl, hcas, hinf1, hinf2, harea1, harea2,
    lt_of_lt_of_le (by norm_num) hmed1, hmed1, hmed2,
    lt_of_lt_of_le (by norm_num) hfood1, hfood1, hfood2,
    lt_of_lt_of_le (by norm_num) hwat1, hwat1, hwat2,
    lt_of_lt_of_le (by norm_num) hres1, hres1, hres2⟩

/-- Witness for C8 at the concrete HIGH-severity fire spawn. -/
theorem C8_spawn_bounds_witness :
    ∃ e : DisasterEvent,
      (generate_disaster envStart fireSpawn).active_disasters =
        envStart.active_disasters ++ [e] ∧
      e.severity = fireSpawn.severity ∧
      e.casualties ≤ e.severity.value * 50 ∧
      (e.severity.value : ℚ) * 5 ≤ e.infrastructure_damage ∧
      e.infrastructure_damage ≤ (e.severity.value : ℚ) * 20 ∧
      (1 : ℚ)/2 ≤ e.affected_area ∧ e.affected_area ≤ 50 ∧
      0 < e.medical_kits ∧ 10 ≤ e.medical_kits ∧ e.medical_kits ≤ 100 ∧
      0 < e.food_packages ∧ 50 ≤ e.food_packages ∧ e.food_packages ≤ 500 ∧
      0 < e.water_bottles ∧ 100 ≤ e.water_bottles ∧ e.water_bottles ≤ 1000 ∧
      0 < e.rescue_teams ∧ 2 ≤ e.rescue_teams ∧ e.rescue_teams ≤ 20 :=
  C8_spawn_bounds envStart fireSpawn
    (by norm_num [fireSpawn, Severity.value])
    (by norm_num [fireSpawn, Severity.value])
    (by norm_num [fireSpawn, Severity.value])
    (by norm_num [fireSpawn]) (by norm_num [fireSpawn])
    (by norm_num [fireSpawn]) (by norm_num [fireSpawn])
    (by norm_num [fireSpawn]) (by norm_num [fireSpawn])
    (by norm_num [fireSpawn]) (by norm_num [fireSpawn])
    (by norm_num [fireSpawn]) (by norm_num [fireSpawn])

end DisasterResponse
